import Mathlib

/-!
Shallow embedding of the ksm userspace physical-memory sandbox
(src/sandbox.c): task registry, copy-on-write page store, the EPT
violation decision logic and the CR3 view-switch logic, together with
theorems about the claims of the specification.

External collaborators (headers ksm.h / mm.h are not part of src/) are
modelled from the specification: the physical memory allocator, the
guest page-table walker, the process subsystem, and the EPT subsystem
that creates and frees views. Numeric constants below mirror the Intel
EPT and x86 paging bits the specification glossary refers to.
-/

namespace Sandbox

/-- Modelled from the spec: page shift of a 4 KiB page (mm.h). -/
def PAGE_SHIFT : Nat := 12

/-- Modelled from the spec: size in bytes of one page frame (mm.h). -/
def PAGE_SIZE : Nat := 4096

/-- Modelled from the spec: mask selecting the physical address bits of a
CR3 value, clearing the low 12 flag bits (mm.h). -/
def PAGE_PA_MASK : Nat := 0xFFFFFFFFFF000

/-- Modelled from the spec: the user/supervisor bit of a guest page-table
entry (x86 PTE bit 2). -/
def PAGE_USER : Nat := 4

/-- Modelled from the spec: EPT read access bit (ksm.h, Intel EPT bit 0). -/
def EPT_ACCESS_READ : Nat := 1

/-- Modelled from the spec: EPT write access bit (ksm.h, Intel EPT bit 1). -/
def EPT_ACCESS_WRITE : Nat := 2

/-- Modelled from the spec: EPT execute access bit (ksm.h, Intel EPT bit 2). -/
def EPT_ACCESS_EXEC : Nat := 4

/-- Modelled from the spec: read + execute access, the default policy of a
freshly created isolated view (ksm.h). -/
def EPT_ACCESS_RX : Nat := 5

/-- Modelled from the spec: number of EPTP list slots; doubles as the
sentinel marking a per-core view identifier as unassigned (ksm.h). -/
def EPT_MAX_EPTP_LIST : Nat := 512

/-- Modelled from the spec: identifier of the shared default (unsandboxed)
view (ksm.h). -/
def EPTP_DEFAULT : Nat := 0

/-- Modelled from the spec: fixed number of logical cores, the size of the
per-task view-identifier array (ksm.h). -/
def KSM_MAX_VCPUS : Nat := 32

/-- Modelled from the spec: the out-of-memory error code returned on
allocation failure (ksm.h). -/
def ERR_NOMEM : Int := -12

/-- One copied page: struct cow_page of src/sandbox.c (the intrusive list
node is represented by membership in the owning list of the task). -/
structure CowPage where
  gpa : Nat
  hpa : Nat
  hva : Nat
deriving DecidableEq

/-- One sandboxed task: struct sa_task of src/sandbox.c. The eptp array is
a list of length KSM_MAX_VCPUS of view identifiers, EPT_MAX_EPTP_LIST
meaning unassigned. -/
structure SaTask where
  pid : Int
  pgd : Nat
  eptp : List Nat
  pages : List CowPage
deriving DecidableEq

/-- The subsystem state: struct ksm restricted to the fields the sandbox
uses, namely the task registry list. -/
structure Ksm where
  taskList : List SaTask
deriving DecidableEq

/-- Modelled from the spec: state of the physical memory allocator
collaborator. Outstanding temporary windows, pool records and page
allocations are tracked by abstract identifier; hostMem gives the byte
content of each allocated host page; next is a freshness counter. -/
structure Heap where
  remapped : List Nat
  pool : List Nat
  pageAllocs : List Nat
  hostMem : Nat → Nat → Nat
  next : Nat

/-- Modelled from the spec: which allocation steps of the collaborators
succeed during one call (window remap, pool record, page allocation). -/
structure AllocPlan where
  remapOk : Bool
  poolOk : Bool
  pageOk : Bool
deriving DecidableEq

/-- Modelled from the spec: the environment of collaborators. pa is the
host virtual-to-physical translation, walk the guest page-table walker
(pgd, gva to pte value), procPid the currently executing process id,
cpu the current logical core, gmem the guest physical memory bytes and
procPgd the process-subsystem pid-to-page-directory resolution. -/
structure Env where
  pa : Nat → Nat
  walk : Nat → Nat → Option Nat
  procPid : Int
  cpu : Nat
  gmem : Nat → Nat
  procPgd : Int → Except Int Nat

/-- Modelled from the spec: map a guest physical frame into a temporary
host-accessible window; returns the window handle. -/
def mm_remap (h : Heap) : Nat × Heap :=
  (h.next, { h with remapped := h.next :: h.remapped, next := h.next + 1 })

/-- Modelled from the spec: release a temporary window. -/
def mm_unmap (h : Heap) (w : Nat) : Heap :=
  { h with remapped := h.remapped.erase w }

/-- Modelled from the spec: allocate a fixed-size bookkeeping record from
the pool. -/
def mm_alloc_pool (h : Heap) : Nat × Heap :=
  (h.next, { h with pool := h.next :: h.pool, next := h.next + 1 })

/-- Modelled from the spec: free a pool record. -/
def mm_free_pool (h : Heap) (r : Nat) : Heap :=
  { h with pool := h.pool.erase r }

/-- Modelled from the spec: allocate a fresh physical page, returning its
host-accessible id. -/
def mm_alloc_page (h : Heap) : Nat × Heap :=
  (h.next, { h with pageAllocs := h.next :: h.pageAllocs, next := h.next + 1 })

/-- Modelled from the spec: memcpy of one full frame from guest physical
memory at gpa into the host page hva. -/
def copy_frame (h : Heap) (gmem : Nat → Nat) (hva gpa : Nat) : Heap :=
  { h with hostMem := fun p off =>
      if p = hva ∧ off < PAGE_SIZE then gmem (gpa + off) else h.hostMem p off }

/-- ksm_sandbox_copy_page of src/sandbox.c, lines 150-180: remap the guest
frame, allocate a record and a fresh page, copy the frame contents,
record the triple and prepend it to the page list of the task. Failure
at a step releases what was acquired and returns none. The success path
returns without unmapping the temporary window, exactly as the source
does. -/
def ksm_sandbox_copy_page (env : Env) (plan : AllocPlan) (task : SaTask)
    (heap : Heap) (gpa : Nat) : Option CowPage × SaTask × Heap :=
  if plan.remapOk then
    let rm := mm_remap heap
    let h := rm.1
    let heap1 := rm.2
    if plan.poolOk then
      let ap := mm_alloc_pool heap1
      let pg := ap.1
      let heap2 := ap.2
      if plan.pageOk then
        let al := mm_alloc_page heap2
        let hva := al.1
        let heap3 := al.2
        let heap4 := copy_frame heap3 env.gmem hva gpa
        let page : CowPage := { gpa := gpa, hpa := env.pa hva, hva := hva }
        (some page, { task with pages := page :: task.pages }, heap4)
      else
        (none, task, mm_unmap (mm_free_pool heap2 pg) h)
    else
      (none, task, mm_unmap heap1 h)
  else
    (none, task, heap)

/-- find_sa_task of src/sandbox.c, lines 214-228: first task of the
registry list whose pid matches, scanning front to back. -/
def find_task_pid : List SaTask → Int → Option SaTask
  | [], _ => none
  | t :: rest, pid => if t.pid = pid then some t else find_task_pid rest pid

/-- find_sa_task_pgd of src/sandbox.c, lines 230-244: first task of the
registry list whose page-directory base matches. -/
def find_task_pgd : List SaTask → Nat → Option SaTask
  | [], _ => none
  | t :: rest, pgd => if t.pgd = pgd then some t else find_task_pgd rest pgd

/-- In-state update of the first task whose pid matches, modelling a write
through the pointer returned by find_sa_task. -/
def set_first_pid (l : List SaTask) (pid : Int) (f : SaTask → SaTask) : List SaTask :=
  match l with
  | [] => []
  | t :: rest => if t.pid = pid then f t :: rest else t :: set_first_pid rest pid f

/-- In-state update of the first task whose pgd matches, modelling a write
through the pointer returned by find_sa_task_pgd. -/
def set_first_pgd (l : List SaTask) (pgd : Nat) (f : SaTask → SaTask) : List SaTask :=
  match l with
  | [] => []
  | t :: rest => if t.pgd = pgd then f t :: rest else t :: set_first_pgd rest pgd f

/-- create_sa_task of src/sandbox.c, lines 128-148: allocate a task record
with every per-core view identifier unassigned and an empty page list,
and prepend it to the registry list under the lock. allocOk models the
outcome of mm_alloc_pool. -/
def create_sa_task (allocOk : Bool) (k : Ksm) (pid : Int) (pgd : Nat) : Int × Ksm :=
  if allocOk then
    let task : SaTask :=
      { pid := pid, pgd := pgd
      , eptp := List.replicate KSM_MAX_VCPUS EPT_MAX_EPTP_LIST
      , pages := [] }
    (0, { k with taskList := task :: k.taskList })
  else
    (ERR_NOMEM, k)

/-- ksm_sandbox of src/sandbox.c, lines 182-212: resolve the pid to its
page-directory base through the process collaborator, mask the flag
bits, and register the task. A resolution failure returns the error of
the collaborator without touching the registry. -/
def ksm_sandbox (env : Env) (allocOk : Bool) (k : Ksm) (pid : Int) : Int × Ksm :=
  match env.procPgd pid with
  | Except.error e => (e, k)
  | Except.ok pgd => create_sa_task allocOk k pid (pgd &&& PAGE_PA_MASK)

/-- The u_pte computation of src/sandbox.c line 275: the guest page-table
entry exists and has the user bit set. -/
def guest_user_bit (pte : Option Nat) : Bool :=
  match pte with
  | none => false
  | some p => decide ((p &&& PAGE_USER) ≠ 0)

/-- The literal branch condition of src/sandbox.c line 279, with C
precedence applied: (u_pte != gva) && ac && ((!u_pte) & EPT_ACCESS_WRITE).
The bool u_pte is integer-promoted for the comparison with the u64 gva
and for the bitwise AND. -/
def cow_branch_cond (u_pte : Bool) (gva ac : Nat) : Bool :=
  decide (u_pte.toNat ≠ gva) && decide (ac ≠ 0) &&
    decide (((!u_pte).toNat &&& EPT_ACCESS_WRITE) ≠ 0)

/-- Refinement reference, from the words of the spec (section 4.3 step 4):
copy exactly when the access is a write, requested from user privilege,
the guest page tables do not grant user access at the address, and the
entry of the isolated view does not already grant write access. -/
def cow_trigger_spec (dpl : Nat) (u_pte : Bool) (ar ac : Nat) : Bool :=
  decide ((ac &&& EPT_ACCESS_WRITE) ≠ 0) && decide (dpl ≠ 0) && !u_pte &&
    decide ((ar &&& EPT_ACCESS_WRITE) = 0)

/-- One write to an entry of an isolated view: view identifier, guest
physical address, new access rights, and the new target frame number
when the entry is repointed (none for a widen in place). -/
structure EpteWrite where
  view : Nat
  gpa : Nat
  ar : Nat
  pfn : Option Nat
deriving DecidableEq

/-- Result of one invocation of the EPT violation handler: return value,
the out-parameters (none when left untouched), the entry write issued
to the EPT collaborator, and the successor states. -/
structure EptOutcome where
  handled : Bool
  invd : Option Bool
  eptpSwitch : Option Nat
  write : Option EpteWrite
  state : Ksm
  heap : Heap

/-- ksm_sandbox_handle_ept of src/sandbox.c, lines 246-296. none models a
BUG_ON halt. With no registered task for the current pid the handler
requests the default view and returns true. Otherwise the literal
condition of line 279 selects the copy branch (allocate a CowPage,
repoint the entry at the new frame with ar|ac) or the widen branch
(set the access rights of the entry to ar|ac in place); both request
invalidation. The computed u_access (line 276) is never used, exactly
as in the source. -/
def ksm_sandbox_handle_ept (env : Env) (plan : AllocPlan) (k : Ksm) (heap : Heap)
    (dpl : Nat) (gpa : Nat) (gva : Nat) (curr : Nat) (ar : Nat) (ac : Nat) :
    Option EptOutcome :=
  match find_task_pid k.taskList env.procPid with
  | none =>
      some { handled := true, invd := none, eptpSwitch := some EPTP_DEFAULT
           , write := none, state := k, heap := heap }
  | some task =>
      let eptp := task.eptp.getD env.cpu EPT_MAX_EPTP_LIST
      if eptp = EPT_MAX_EPTP_LIST then none
      else if eptp ≠ curr then none
      else
        let u_pte := guest_user_bit (env.walk task.pgd gva)
        let u_access := decide (dpl ≠ 0)
        if cow_branch_cond u_pte gva ac then
          match ksm_sandbox_copy_page env plan task heap gpa with
          | (none, _, heap1) =>
              some { handled := false, invd := none, eptpSwitch := none
                   , write := none, state := k, heap := heap1 }
          | (some page, task1, heap1) =>
              let k1 : Ksm :=
                { k with taskList := set_first_pid k.taskList env.procPid (fun _ => task1) }
              some { handled := true, invd := some true, eptpSwitch := none
                   , write := some { view := curr, gpa := gpa, ar := ar ||| ac
                                   , pfn := some (page.hpa >>> PAGE_SHIFT) }
                   , state := k1
                   , heap := heap1 }
        else
          some { handled := true, invd := some true, eptpSwitch := none
               , write := some { view := curr, gpa := gpa, ar := ar ||| ac
                               , pfn := none }
               , state := k, heap := heap }

/-- Result of one invocation of the CR3 handler: successor registry state,
the view the core was switched to, and the list of views created by the
EPT collaborator during the call, each with its base access policy. -/
structure Cr3Outcome where
  state : Ksm
  active : Nat
  created : List (Nat × Nat)
deriving DecidableEq

/-- ksm_sandbox_handle_cr3 of src/sandbox.c, lines 298-315: mask the CR3
value, look the task up by page-directory base; when found, create an
isolated read+execute view on first use of this core slot and cache its
identifier, then switch to the cached view; otherwise switch to the
shared default view. freshView is the identifier the EPT collaborator
hands out when a view is created. -/
def ksm_sandbox_handle_cr3 (k : Ksm) (cpu : Nat) (freshView : Nat) (cr3 : Nat) :
    Cr3Outcome :=
  let pgd := cr3 &&& PAGE_PA_MASK
  match find_task_pgd k.taskList pgd with
  | some task =>
      let slot := task.eptp.getD cpu EPT_MAX_EPTP_LIST
      if slot = EPT_MAX_EPTP_LIST then
        let k1 : Ksm :=
          { k with taskList := set_first_pgd k.taskList pgd
                                 (fun t => { t with eptp := t.eptp.set cpu freshView }) }
        { state := k1
        , active := freshView
        , created := [(freshView, EPT_ACCESS_RX)] }
      else
        { state := k, active := slot, created := [] }
  | none =>
      { state := k, active := EPTP_DEFAULT, created := [] }

/-- Resources released during teardown: freed view identifiers, freed host
page frames, freed cow_page bookkeeping records, freed task records. -/
structure FreeLog where
  views : List Nat
  frames : List Nat
  pageRecs : List CowPage
  taskRecs : List SaTask
deriving DecidableEq

/-- Concatenation of two teardown logs. -/
def FreeLog.append (a b : FreeLog) : FreeLog :=
  { views := a.views ++ b.views
  , frames := a.frames ++ b.frames
  , pageRecs := a.pageRecs ++ b.pageRecs
  , taskRecs := a.taskRecs ++ b.taskRecs }

/-- The per-core loop of __free_sa_task (src/sandbox.c lines 90-95):
ept_free_ptr on every slot not equal to the unassigned sentinel. -/
def free_views_loop : List Nat → List Nat
  | [] => []
  | e :: rest =>
      if e ≠ EPT_MAX_EPTP_LIST then e :: free_views_loop rest
      else free_views_loop rest

/-- The page loop of __free_sa_task (src/sandbox.c lines 97-98), each
iteration being free_cow_page (lines 76-81): unlink the page, free its
host frame, free its record. Returns (freed frames, freed records). -/
def free_pages_loop : List CowPage → List Nat × List CowPage
  | [] => ([], [])
  | p :: rest =>
      (p.hva :: (free_pages_loop rest).1, p :: (free_pages_loop rest).2)

/-- __free_sa_task of src/sandbox.c, lines 83-101: free the assigned views,
free every cow page, free the task record. -/
def free_sa_task_log (t : SaTask) : FreeLog :=
  { views := free_views_loop t.eptp
  , frames := (free_pages_loop t.pages).1
  , pageRecs := (free_pages_loop t.pages).2
  , taskRecs := [t] }

/-- The task loop of ksm_sandbox_exit (src/sandbox.c lines 122-123). -/
def exit_loop : List SaTask → FreeLog
  | [] => { views := [], frames := [], pageRecs := [], taskRecs := [] }
  | t :: rest => FreeLog.append (free_sa_task_log t) (exit_loop rest)

/-- ksm_sandbox_exit of src/sandbox.c, lines 118-126: tear every task of
the registry down. -/
def ksm_sandbox_exit (k : Ksm) : FreeLog :=
  exit_loop k.taskList

/-! Concrete collaborator environments and states used to instantiate the
theorems below. -/

/-- A concrete environment: identity-style translations, a guest page-table
entry that is present but not user-accessible (value 3 = present+rw,
user bit 4 clear), current pid 42 on core 0. -/
def envA : Env :=
  { pa := fun n => n * 4096
  , walk := fun _ _ => some 3
  , procPid := 42
  , cpu := 0
  , gmem := fun a => a
  , procPgd := fun _ => Except.ok 0x1000 }

/-- Registered task of pid 42, pgd 0x1000, with view 3 assigned on core 0. -/
def taskA : SaTask :=
  { pid := 42, pgd := 0x1000
  , eptp := (List.replicate KSM_MAX_VCPUS EPT_MAX_EPTP_LIST).set 0 3
  , pages := [] }

/-- Registry holding exactly taskA. -/
def ksmA : Ksm := { taskList := [taskA] }

/-- Empty registry. -/
def ksmEmpty : Ksm := { taskList := [] }

/-- An empty heap with freshness counter 10. -/
def heap0 : Heap :=
  { remapped := [], pool := [], pageAllocs := [], hostMem := fun _ _ => 0, next := 10 }

/-- Allocation plan on which every step succeeds. -/
def planOk : AllocPlan := { remapOk := true, poolOk := true, pageOk := true }

/-- Allocation plan on which the page allocation step fails. -/
def planNoPage : AllocPlan := { remapOk := true, poolOk := true, pageOk := false }

/-- Fresh task with no pages and no assigned views. -/
def taskB : SaTask :=
  { pid := 7, pgd := 0
  , eptp := List.replicate KSM_MAX_VCPUS EPT_MAX_EPTP_LIST
  , pages := [] }

/-- Task that already owns a CowPage for gpa 0x2000. -/
def taskD : SaTask :=
  { pid := 5, pgd := 0
  , eptp := List.replicate KSM_MAX_VCPUS EPT_MAX_EPTP_LIST
  , pages := [{ gpa := 0x2000, hpa := 111, hva := 222 }] }

/-! Claim theorems. -/

/-- C1: the specification trigger condition (user-mode write to an address
that the guest page tables do not make user-accessible, with no write
access in the isolated view) holds at the Scenario A fault, yet the
handler takes the widen branch: no CowPage is allocated, the entry is
widened in place (pfn untouched), and the registry and heap are
unchanged. The literal condition of line 279 is never satisfiable
because (!u_pte) & EPT_ACCESS_WRITE is always 0. -/
theorem c1_scenarioA_takes_widen_not_copy :
    cow_trigger_spec 3 (guest_user_bit (envA.walk 0x1000 0x7f0000)) 5 2 = true ∧
    ksm_sandbox_handle_ept envA planOk ksmA heap0 3 0x2000 0x7f0000 3 5 2 =
      some { handled := true, invd := some true, eptpSwitch := none
           , write := some { view := 3, gpa := 0x2000, ar := 7, pfn := none }
           , state := ksmA, heap := heap0 } :=
  ⟨rfl, rfl⟩

/-- Helper: the literal branch condition of line 279 is false on every
input, because the bitwise AND of the 0/1 promotion of !u_pte with
EPT_ACCESS_WRITE = 2 is always 0: the copy branch is unreachable. -/
theorem cow_branch_cond_always_false (u_pte : Bool) (gva ac : Nat) :
    cow_branch_cond u_pte gva ac = false := by
  cases u_pte <;> simp [cow_branch_cond, EPT_ACCESS_WRITE]

/-- C2: a fully successful copyPage run at gpa 0x2000 copies the frame
contents into the fresh page, records {gpa, new hpa, new hva}, prepends
the CowPage to the page list of the task — but returns with the
temporary window still in the remapped set: the source unmaps the
window only on its error paths. -/
theorem c2_copy_page_success_window_not_released :
    (ksm_sandbox_copy_page envA planOk taskB heap0 0x2000).1 =
      some { gpa := 0x2000, hpa := 49152, hva := 12 } ∧
    (ksm_sandbox_copy_page envA planOk taskB heap0 0x2000).2.1.pages =
      [{ gpa := 0x2000, hpa := 49152, hva := 12 }] ∧
    (ksm_sandbox_copy_page envA planOk taskB heap0 0x2000).2.2.hostMem 12 0 = 0x2000 ∧
    (ksm_sandbox_copy_page envA planOk taskB heap0 0x2000).2.2.hostMem 12 4095 = 0x2000 + 4095 ∧
    (ksm_sandbox_copy_page envA planOk taskB heap0 0x2000).2.2.pageAllocs = [12] ∧
    (ksm_sandbox_copy_page envA planOk taskB heap0 0x2000).2.2.remapped = [10] := by
  refine ⟨rfl, rfl, ?_, ?_, rfl, rfl⟩ <;>
    simp [ksm_sandbox_copy_page, envA, planOk, taskB, heap0, mm_remap,
          mm_alloc_pool, mm_alloc_page, copy_frame, PAGE_SIZE]

/-- C3: when any allocation step fails (window remap, record allocation or
page allocation), copyPage returns none, the task — in particular its
page list — is unchanged, and every resource class of the allocator
(windows, pool records, page allocations, host page contents) is as it
was before the call. -/
theorem c3_copy_page_failure_releases_everything (env : Env) (plan : AllocPlan)
    (task : SaTask) (heap : Heap) (gpa : Nat)
    (h : plan.remapOk = false ∨ plan.poolOk = false ∨ plan.pageOk = false) :
    (ksm_sandbox_copy_page env plan task heap gpa).1 = none ∧
    (ksm_sandbox_copy_page env plan task heap gpa).2.1 = task ∧
    (ksm_sandbox_copy_page env plan task heap gpa).2.2.remapped = heap.remapped ∧
    (ksm_sandbox_copy_page env plan task heap gpa).2.2.pool = heap.pool ∧
    (ksm_sandbox_copy_page env plan task heap gpa).2.2.pageAllocs = heap.pageAllocs ∧
    (ksm_sandbox_copy_page env plan task heap gpa).2.2.hostMem = heap.hostMem := by
  rcases plan with ⟨r, p, g⟩
  cases r <;> cases p <;> cases g <;>
    simp_all [ksm_sandbox_copy_page, mm_remap, mm_unmap, mm_alloc_pool,
              mm_free_pool, mm_alloc_page, List.erase_cons_head]

/-- Witness for C3 at the concrete page-allocation failure. -/
theorem c3_copy_page_failure_releases_everything_witness :
    (planNoPage.remapOk = false ∨ planNoPage.poolOk = false ∨ planNoPage.pageOk = false) ∧
    ((ksm_sandbox_copy_page envA planNoPage taskB heap0 0x2000).1 = none ∧
     (ksm_sandbox_copy_page envA planNoPage taskB heap0 0x2000).2.1 = taskB ∧
     (ksm_sandbox_copy_page envA planNoPage taskB heap0 0x2000).2.2.remapped = heap0.remapped ∧
     (ksm_sandbox_copy_page envA planNoPage taskB heap0 0x2000).2.2.pool = heap0.pool ∧
     (ksm_sandbox_copy_page envA planNoPage taskB heap0 0x2000).2.2.pageAllocs = heap0.pageAllocs ∧
     (ksm_sandbox_copy_page envA planNoPage taskB heap0 0x2000).2.2.hostMem = heap0.hostMem) :=
  ⟨Or.inr (Or.inr rfl),
   c3_copy_page_failure_releases_everything envA planNoPage taskB heap0 0x2000
     (Or.inr (Or.inr rfl))⟩

/-- C4: an EPT violation while the current process has no registered task
returns handled = true, instructs a switch to the shared default view,
leaves the invalidate flag untouched, issues no entry write, and leaves
the registry and the heap unchanged. -/
theorem c4_handle_ept_no_task_default_view (env : Env) (plan : AllocPlan) (k : Ksm)
    (heap : Heap) (dpl gpa gva curr ar ac : Nat)
    (h : find_task_pid k.taskList env.procPid = none) :
    ksm_sandbox_handle_ept env plan k heap dpl gpa gva curr ar ac =
      some { handled := true, invd := none, eptpSwitch := some EPTP_DEFAULT
           , write := none, state := k, heap := heap } := by
  simp [ksm_sandbox_handle_ept, h]

/-- Witness for C4 on the empty registry. -/
theorem c4_handle_ept_no_task_default_view_witness :
    find_task_pid ksmEmpty.taskList envA.procPid = none ∧
    ksm_sandbox_handle_ept envA planOk ksmEmpty heap0 0 0 0 0 0 0 =
      some { handled := true, invd := none, eptpSwitch := some EPTP_DEFAULT
           , write := none, state := ksmEmpty, heap := heap0 } :=
  ⟨rfl, c4_handle_ept_no_task_default_view envA planOk ksmEmpty heap0 0 0 0 0 0 0 rfl⟩

/-- C9: the outcome of the EPT violation handler does not depend on the
faulting privilege level: dpl feeds only the u_access local, which the
source never reads. Both invocations agree on the branch taken, the
entry write, the return value, the out-parameters and the successor
states. -/
theorem c9_handle_ept_independent_of_dpl (env : Env) (plan : AllocPlan) (k : Ksm)
    (heap : Heap) (dpl1 dpl2 gpa gva curr ar ac : Nat) :
    ksm_sandbox_handle_ept env plan k heap dpl1 gpa gva curr ar ac =
    ksm_sandbox_handle_ept env plan k heap dpl2 gpa gva curr ar ac := rfl

/-- C10: a successful copyPage call never inspects the existing page list:
it prepends a fresh CowPage carrying the requested gpa whatever the
list already holds, so the count of CowPages recorded for that gpa
grows by one even when one is already present. -/
theorem c10_copy_page_appends_unconditionally (env : Env) (plan : AllocPlan)
    (task : SaTask) (heap : Heap) (gpa : Nat)
    (h1 : plan.remapOk = true) (h2 : plan.poolOk = true) (h3 : plan.pageOk = true) :
    (ksm_sandbox_copy_page env plan task heap gpa).1 =
      some { gpa := gpa, hpa := env.pa (heap.next + 2), hva := heap.next + 2 } ∧
    (ksm_sandbox_copy_page env plan task heap gpa).2.1.pages =
      { gpa := gpa, hpa := env.pa (heap.next + 2), hva := heap.next + 2 } :: task.pages ∧
    (ksm_sandbox_copy_page env plan task heap gpa).2.1.pages.countP
        (fun p => p.gpa == gpa) =
      task.pages.countP (fun p => p.gpa == gpa) + 1 := by
  rcases plan with ⟨r, p, g⟩
  cases r
  · cases h1
  · cases p
    · cases h2
    · cases g
      · cases h3
      · refine ⟨rfl, rfl, ?_⟩
        simp [ksm_sandbox_copy_page, mm_remap, mm_alloc_pool, mm_alloc_page,
              copy_frame, List.countP_cons]

/-- Witness for C10 on a task that already owns a CowPage at gpa 0x2000. -/
theorem c10_copy_page_appends_unconditionally_witness :
    planOk.remapOk = true ∧ planOk.poolOk = true ∧ planOk.pageOk = true ∧
    ((ksm_sandbox_copy_page envA planOk taskD heap0 0x2000).1 =
       some { gpa := 0x2000, hpa := envA.pa (heap0.next + 2), hva := heap0.next + 2 } ∧
     (ksm_sandbox_copy_page envA planOk taskD heap0 0x2000).2.1.pages =
       { gpa := 0x2000, hpa := envA.pa (heap0.next + 2), hva := heap0.next + 2 }
         :: taskD.pages ∧
     (ksm_sandbox_copy_page envA planOk taskD heap0 0x2000).2.1.pages.countP
         (fun p => p.gpa == 0x2000) =
       taskD.pages.countP (fun p => p.gpa == 0x2000) + 1) :=
  ⟨rfl, rfl, rfl,
   c10_copy_page_appends_unconditionally envA planOk taskD heap0 0x2000 rfl rfl rfl⟩

/-- Helper: updating the first pgd match with a pgd-preserving function
commutes with the lookup by that pgd. -/
theorem find_set_first_pgd (l : List SaTask) (pgd : Nat) (f : SaTask → SaTask)
    (hf : ∀ s, (f s).pgd = s.pgd) :
    find_task_pgd (set_first_pgd l pgd f) pgd = Option.map f (find_task_pgd l pgd) := by
  induction l with
  | nil => rfl
  | cons t rest ih =>
    by_cases h : t.pgd = pgd
    · simp [set_first_pgd, find_task_pgd, h, hf]
    · simp [set_first_pgd, find_task_pgd, h, ih]

/-- Helper: reading back an in-bounds list update. -/
theorem getD_set_self (l : List Nat) (i v d : Nat) (h : i < l.length) :
    (l.set i v).getD i d = v := by
  induction l generalizing i with
  | nil => simp at h
  | cons a rest ih =>
    cases i with
    | zero => rfl
    | succ n =>
      have hn : n < rest.length := by simpa using h
      simpa [List.set, List.getD_cons_succ] using ih n hn

/-- C5: with a task registered for the page-directory base of the CR3 value
and current core cpu, a first load creates a view (read+execute base
policy) exactly when the core slot is unassigned, and every repeated
load on the same core then reproduces the first switch: same active
view identifier, unchanged registry state, and no further view
creation. -/
theorem c5_handle_cr3_repeat_same_view (k : Ksm) (cpu fresh1 fresh2 cr3 : Nat)
    (t : SaTask)
    (hcpu : cpu < KSM_MAX_VCPUS)
    (hfind : find_task_pgd k.taskList (cr3 &&& PAGE_PA_MASK) = some t)
    (hlen : t.eptp.length = KSM_MAX_VCPUS)
    (hfresh : fresh1 ≠ EPT_MAX_EPTP_LIST) :
    ksm_sandbox_handle_cr3 (ksm_sandbox_handle_cr3 k cpu fresh1 cr3).state cpu fresh2 cr3 =
      { state := (ksm_sandbox_handle_cr3 k cpu fresh1 cr3).state
      , active := (ksm_sandbox_handle_cr3 k cpu fresh1 cr3).active
      , created := [] } ∧
    (t.eptp.getD cpu EPT_MAX_EPTP_LIST = EPT_MAX_EPTP_LIST →
      (ksm_sandbox_handle_cr3 k cpu fresh1 cr3).created = [(fresh1, EPT_ACCESS_RX)] ∧
      (ksm_sandbox_handle_cr3 k cpu fresh1 cr3).active = fresh1) ∧
    (t.eptp.getD cpu EPT_MAX_EPTP_LIST ≠ EPT_MAX_EPTP_LIST →
      (ksm_sandbox_handle_cr3 k cpu fresh1 cr3).created = [] ∧
      (ksm_sandbox_handle_cr3 k cpu fresh1 cr3).state = k) := by
  by_cases hs : t.eptp.getD cpu EPT_MAX_EPTP_LIST = EPT_MAX_EPTP_LIST
  · have hlt : cpu < t.eptp.length := hlen ▸ hcpu
    have hs9 : t.eptp[cpu]?.getD EPT_MAX_EPTP_LIST = EPT_MAX_EPTP_LIST := by
      rw [← List.getD_eq_getElem?_getD]; exact hs
    have hfind2 : find_task_pgd
        (set_first_pgd k.taskList (cr3 &&& PAGE_PA_MASK)
          (fun s => { s with eptp := s.eptp.set cpu fresh1 })) (cr3 &&& PAGE_PA_MASK) =
        some { t with eptp := t.eptp.set cpu fresh1 } := by
      rw [find_set_first_pgd k.taskList (cr3 &&& PAGE_PA_MASK)
            (fun s => { s with eptp := s.eptp.set cpu fresh1 }) (fun s => rfl),
          hfind]
      rfl
    have hslot2 : (t.eptp.set cpu fresh1)[cpu]?.getD EPT_MAX_EPTP_LIST = fresh1 := by
      rw [← List.getD_eq_getElem?_getD]; exact getD_set_self _ _ _ _ hlt
    have hr1 : ksm_sandbox_handle_cr3 k cpu fresh1 cr3 =
        { state := { taskList := set_first_pgd k.taskList (cr3 &&& PAGE_PA_MASK)
                       (fun s => { s with eptp := s.eptp.set cpu fresh1 }) }
        , active := fresh1, created := [(fresh1, EPT_ACCESS_RX)] } := by
      simp [ksm_sandbox_handle_cr3, hfind, hs9]
    have hr2 : ksm_sandbox_handle_cr3 (ksm_sandbox_handle_cr3 k cpu fresh1 cr3).state
        cpu fresh2 cr3 =
        { state := (ksm_sandbox_handle_cr3 k cpu fresh1 cr3).state
        , active := fresh1, created := [] } := by
      rw [hr1]
      simp [ksm_sandbox_handle_cr3, hfind2, hslot2, hfresh]
    refine ⟨?_, fun _ => ⟨by rw [hr1], by rw [hr1]⟩, fun hne => absurd hs hne⟩
    rw [hr2, hr1]
  · have hs9 : ¬ t.eptp[cpu]?.getD EPT_MAX_EPTP_LIST = EPT_MAX_EPTP_LIST := by
      rw [← List.getD_eq_getElem?_getD]; exact hs
    have hr1 : ksm_sandbox_handle_cr3 k cpu fresh1 cr3 =
        { state := k, active := t.eptp[cpu]?.getD EPT_MAX_EPTP_LIST, created := [] } := by
      simp [ksm_sandbox_handle_cr3, hfind, hs9]
    refine ⟨?_, fun heq => absurd heq hs, fun _ => ⟨by rw [hr1], by rw [hr1]⟩⟩
    rw [hr1]
    simp [ksm_sandbox_handle_cr3, hfind, hs9]

/-- Witness for C5: pid 9 at pgd 0x5000, core 1 unassigned, fresh view 7. -/
theorem c5_handle_cr3_repeat_same_view_witness :
    (1 < KSM_MAX_VCPUS) ∧
    (find_task_pgd ({ taskList := [{ pid := 9, pgd := 0x5000
                                   , eptp := List.replicate KSM_MAX_VCPUS EPT_MAX_EPTP_LIST
                                   , pages := [] }] } : Ksm).taskList
        (0x5007 &&& PAGE_PA_MASK) =
      some { pid := 9, pgd := 0x5000
           , eptp := List.replicate KSM_MAX_VCPUS EPT_MAX_EPTP_LIST, pages := [] }) ∧
    ((List.replicate KSM_MAX_VCPUS EPT_MAX_EPTP_LIST).length = KSM_MAX_VCPUS) ∧
    (7 ≠ EPT_MAX_EPTP_LIST) ∧
    (ksm_sandbox_handle_cr3
        (ksm_sandbox_handle_cr3
          ({ taskList := [{ pid := 9, pgd := 0x5000
                          , eptp := List.replicate KSM_MAX_VCPUS EPT_MAX_EPTP_LIST
                          , pages := [] }] } : Ksm) 1 7 0x5007).state 1 8 0x5007 =
      { state := (ksm_sandbox_handle_cr3
          ({ taskList := [{ pid := 9, pgd := 0x5000
                          , eptp := List.replicate KSM_MAX_VCPUS EPT_MAX_EPTP_LIST
                          , pages := [] }] } : Ksm) 1 7 0x5007).state
      , active := (ksm_sandbox_handle_cr3
          ({ taskList := [{ pid := 9, pgd := 0x5000
                          , eptp := List.replicate KSM_MAX_VCPUS EPT_MAX_EPTP_LIST
                          , pages := [] }] } : Ksm) 1 7 0x5007).active
      , created := [] } ∧
     (({ pid := 9, pgd := 0x5000
       , eptp := List.replicate KSM_MAX_VCPUS EPT_MAX_EPTP_LIST
       , pages := [] } : SaTask).eptp.getD 1 EPT_MAX_EPTP_LIST = EPT_MAX_EPTP_LIST →
       (ksm_sandbox_handle_cr3
          ({ taskList := [{ pid := 9, pgd := 0x5000
                          , eptp := List.replicate KSM_MAX_VCPUS EPT_MAX_EPTP_LIST
                          , pages := [] }] } : Ksm) 1 7 0x5007).created =
         [(7, EPT_ACCESS_RX)] ∧
       (ksm_sandbox_handle_cr3
          ({ taskList := [{ pid := 9, pgd := 0x5000
                          , eptp := List.replicate KSM_MAX_VCPUS EPT_MAX_EPTP_LIST
                          , pages := [] }] } : Ksm) 1 7 0x5007).active = 7) ∧
     (({ pid := 9, pgd := 0x5000
       , eptp := List.replicate KSM_MAX_VCPUS EPT_MAX_EPTP_LIST
       , pages := [] } : SaTask).eptp.getD 1 EPT_MAX_EPTP_LIST ≠ EPT_MAX_EPTP_LIST →
       (ksm_sandbox_handle_cr3
          ({ taskList := [{ pid := 9, pgd := 0x5000
                          , eptp := List.replicate KSM_MAX_VCPUS EPT_MAX_EPTP_LIST
                          , pages := [] }] } : Ksm) 1 7 0x5007).created = [] ∧
       (ksm_sandbox_handle_cr3
          ({ taskList := [{ pid := 9, pgd := 0x5000
                          , eptp := List.replicate KSM_MAX_VCPUS EPT_MAX_EPTP_LIST
                          , pages := [] }] } : Ksm) 1 7 0x5007).state =
         { taskList := [{ pid := 9, pgd := 0x5000
                        , eptp := List.replicate KSM_MAX_VCPUS EPT_MAX_EPTP_LIST
                        , pages := [] }] })) :=
  ⟨by decide, rfl, by decide, by decide,
   c5_handle_cr3_repeat_same_view _ 1 7 8 0x5007 _ (by decide) rfl rfl (by decide)⟩

/-- C6: a CR3 load whose masked page-directory base matches no registered
task switches the core to the shared default view, creates no view and
leaves the registry — every task record, per-core view identifier and
page list — untouched. -/
theorem c6_handle_cr3_unregistered_default (k : Ksm) (cpu fresh cr3 : Nat)
    (h : find_task_pgd k.taskList (cr3 &&& PAGE_PA_MASK) = none) :
    ksm_sandbox_handle_cr3 k cpu fresh cr3 =
      { state := k, active := EPTP_DEFAULT, created := [] } := by
  simp [ksm_sandbox_handle_cr3, h]

/-- Witness for C6 on a registry that holds a task with another pgd. -/
theorem c6_handle_cr3_unregistered_default_witness :
    find_task_pgd ksmA.taskList (0x9000 &&& PAGE_PA_MASK) = none ∧
    ksm_sandbox_handle_cr3 ksmA 0 7 0x9000 =
      { state := ksmA, active := EPTP_DEFAULT, created := [] } :=
  ⟨by decide, c6_handle_cr3_unregistered_default ksmA 0 7 0x9000 (by decide)⟩

/-- Helper: the view loop of __free_sa_task frees exactly the slots not
marked unassigned. -/
theorem free_views_loop_eq_filter (l : List Nat) :
    free_views_loop l = l.filter (fun e => decide (e ≠ EPT_MAX_EPTP_LIST)) := by
  induction l with
  | nil => rfl
  | cons e rest ih =>
    by_cases h : e = EPT_MAX_EPTP_LIST <;> simp [free_views_loop, h, ih]

/-- Helper: the page loop of __free_sa_task frees exactly every host frame
and every bookkeeping record of the list. -/
theorem free_pages_loop_eq (l : List CowPage) :
    free_pages_loop l = (l.map (fun p => p.hva), l) := by
  induction l with
  | nil => rfl
  | cons p rest ih => simp [free_pages_loop, ih]

/-- Helper: the task loop of ksm_sandbox_exit, characterised
declaratively. -/
theorem exit_loop_spec (l : List SaTask) :
    (exit_loop l).views =
      (l.map (fun t => t.eptp.filter (fun e => decide (e ≠ EPT_MAX_EPTP_LIST)))).flatten ∧
    (exit_loop l).frames = (l.map (fun t => t.pages.map (fun p => p.hva))).flatten ∧
    (exit_loop l).pageRecs = (l.map (fun t => t.pages)).flatten ∧
    (exit_loop l).taskRecs = l := by
  induction l with
  | nil => exact ⟨rfl, rfl, rfl, rfl⟩
  | cons t rest ih =>
    refine ⟨?_, ?_, ?_, ?_⟩ <;>
      simp [exit_loop, FreeLog.append, free_sa_task_log, free_views_loop_eq_filter,
            free_pages_loop_eq, ih.1, ih.2.1, ih.2.2.1, ih.2.2.2]

/-- C7: subsystem shutdown frees, across every registered task, exactly the
assigned per-core views (skipping the slots still marked unassigned),
the host frame and the bookkeeping record of every CowPage, and every
task record. -/
theorem c7_exit_frees_everything (k : Ksm) :
    (ksm_sandbox_exit k).views =
      (k.taskList.map
        (fun t => t.eptp.filter (fun e => decide (e ≠ EPT_MAX_EPTP_LIST)))).flatten ∧
    (ksm_sandbox_exit k).frames =
      (k.taskList.map (fun t => t.pages.map (fun p => p.hva))).flatten ∧
    (ksm_sandbox_exit k).pageRecs = (k.taskList.map (fun t => t.pages)).flatten ∧
    (ksm_sandbox_exit k).taskRecs = k.taskList :=
  exit_loop_spec k.taskList

/-- C8: registering a pid that is already registered is well defined: the
call succeeds and prepends a fresh independent task record (unassigned
views, empty page list) while the previously registered record — and
every other record — stays in the registry unchanged. -/
theorem c8_reregister_creates_second_record (env : Env) (k : Ksm) (pid : Int)
    (pgd : Nat) (t0 : SaTask)
    (hmem : t0 ∈ k.taskList) (hpid : t0.pid = pid)
    (hres : env.procPgd pid = Except.ok pgd) :
    ksm_sandbox env true k pid =
      (0, { taskList := ({ pid := pid, pgd := pgd &&& PAGE_PA_MASK
                         , eptp := List.replicate KSM_MAX_VCPUS EPT_MAX_EPTP_LIST
                         , pages := [] } : SaTask) :: k.taskList }) ∧
    t0 ∈ (ksm_sandbox env true k pid).2.taskList := by
  have h1 : ksm_sandbox env true k pid =
      (0, { taskList := ({ pid := pid, pgd := pgd &&& PAGE_PA_MASK
                         , eptp := List.replicate KSM_MAX_VCPUS EPT_MAX_EPTP_LIST
                         , pages := [] } : SaTask) :: k.taskList }) := by
    simp [ksm_sandbox, hres, create_sa_task]
  exact ⟨h1, by rw [h1]; exact List.mem_cons_of_mem _ hmem⟩

/-- Witness for C8: pid 42 is registered in ksmA and is registered again. -/
theorem c8_reregister_creates_second_record_witness :
    taskA ∈ ksmA.taskList ∧ taskA.pid = 42 ∧
    envA.procPgd 42 = Except.ok 0x1000 ∧
    (ksm_sandbox envA true ksmA 42 =
      (0, { taskList := ({ pid := 42, pgd := 0x1000 &&& PAGE_PA_MASK
                         , eptp := List.replicate KSM_MAX_VCPUS EPT_MAX_EPTP_LIST
                         , pages := [] } : SaTask) :: ksmA.taskList }) ∧
     taskA ∈ (ksm_sandbox envA true ksmA 42).2.taskList) :=
  ⟨List.mem_singleton.mpr rfl, rfl, rfl,
   c8_reregister_creates_second_record envA ksmA 42 0x1000 taskA
     (List.mem_singleton.mpr rfl) rfl rfl⟩

end Sandbox
